import Mathlib

/-!
Verification of the Smart DNS Proxy management layer.

The development shallowly embeds the repository's configuration logic:

* `src/config.js` — the JSON-backed settings and the domain override list
  (`addDomain`, `removeDomain`);
* `src/dnsconfig.js` — generation of the dnsmasq forwarder configuration
  (`generateDnsmasqConfig`, `updateDNSConfig`, `restartDnsmasq`,
  `generateBypassReport`), modelled with explicit state and an environment
  recording the outcome of each I/O operation;
* `src/logger.js` — the best-effort file loggers (`info`, `error`, `dnsQuery`);
* `src/routes/api.js` — the pure decision cores of the HTTP handlers
  (`GET /api/status`, `POST /api/domains`, `GET/POST /api/settings`).

Strings are manipulated through their underlying character lists so that all
definitions are executable and kernel-reducible on concrete inputs.
-/

/-! ## Data model (src/config.js) -/

/-- One entry of the domain override list stored in `data/ips.json`:
`{domain, resolveVia}`. -/
structure OverrideEntry where
  domain : String
  resolveVia : String
deriving DecidableEq, Repr

/-- The domain list object `{domains: [...]}` stored in `data/ips.json`. -/
structure DomainList where
  domains : List OverrideEntry
deriving DecidableEq, Repr

/-- The `dnsServer` section of `data/config.json`. -/
structure DnsServerSettings where
  port : Nat
  cacheSize : Nat
  logQueries : Bool
deriving DecidableEq, Repr

/-- The `webInterface` section of `data/config.json`.  The password field may
be absent from the stored JSON, hence `Option`. -/
structure WebInterfaceSettings where
  port : Nat
  enableAuth : Bool
  username : String
  password : Option String
deriving DecidableEq, Repr

/-- The application settings object stored in `data/config.json`. -/
structure AppConfig where
  dnsServer : DnsServerSettings
  alternativeDNS : List String
  webInterface : WebInterfaceSettings
deriving DecidableEq, Repr

/-! ## Forwarder configuration generation (src/dnsconfig.js, generateDnsmasqConfig)

The JavaScript builds one string where every `+=` appends whole lines; we embed
the generated file as its list of lines.  `timestamp` stands for
`new Date().toISOString()`, which only appears inside the second comment
line. -/

/-- Lines of the dnsmasq configuration produced by `generateDnsmasqConfig`
for a given settings object and domain list. -/
def generateDnsmasqConfigLines (cfg : AppConfig) (dl : DomainList)
    (timestamp : String) : List String :=
  ["# Smart DNS Proxy Configuration",
   "# Generated at " ++ timestamp,
   "",
   "# Basic configuration",
   "port=" ++ toString cfg.dnsServer.port,
   "cache-size=" ++ toString cfg.dnsServer.cacheSize,
   "log-queries=" ++ (if cfg.dnsServer.logQueries then "true" else "false"),
   "",
   "# Alternative DNS servers"]
  ++ cfg.alternativeDNS.map (fun dns => "server=" ++ dns)
  ++ (["", "# Domain specific configurations"]
      ++ (if dl.domains.length > 0 then
            dl.domains.map (fun item => "server=/" ++ item.domain ++ "/" ++ item.resolveVia)
          else
            ["# No domains configured yet"]))

/-- A dnsmasq directive line: non-empty and not a `#` comment.  This is the
observation used to compare two generated configurations functionally. -/
def isDirective (l : String) : Bool :=
  match l.data with
  | [] => false
  | c :: _ => c != '#'

/-- The directive lines (functional content) of a generated configuration. -/
def directiveLines (lines : List String) : List String :=
  lines.filter isDirective

/-! ## Override list operations (src/config.js) -/

/-- `config.addDomain`: the first entry whose `domain` equals the argument has
its `resolveVia` overwritten in place; when none matches, a new entry is pushed
at the end.  (The JavaScript locates the entry with `findIndex` and mutates it;
this recursion replaces exactly that first match.) -/
def addDomain (l : List OverrideEntry) (domain resolveVia : String) :
    List OverrideEntry :=
  match l with
  | [] => [⟨domain, resolveVia⟩]
  | e :: rest =>
    if e.domain == domain then ⟨e.domain, resolveVia⟩ :: rest
    else e :: addDomain rest domain resolveVia

/-- `config.removeDomain`: keep exactly the entries whose domain differs. -/
def removeDomain (l : List OverrideEntry) (domain : String) :
    List OverrideEntry :=
  l.filter (fun d => d.domain != domain)

/-! ## String helpers (executable, kernel-reducible)

`String.splitOn` does not reduce in the kernel, so splitting is done on the
underlying character lists. -/

/-- Split a character list on a separator character.  Mirrors the behaviour of
JavaScript `String.prototype.split` with a single-character separator. -/
def splitOnChar (sep : Char) : List Char → List (List Char)
  | [] => [[]]
  | c :: cs =>
    let rest := splitOnChar sep cs
    if c = sep then [] :: rest
    else
      match rest with
      | [] => [[c]]
      | r :: rs => (c :: r) :: rs

/-- The dot-separated labels of a domain string. -/
def labelsOf (s : String) : List String :=
  (splitOnChar '.' s.data).map (fun cs => String.mk cs)

/-- Join labels back with dots. -/
def joinDot : List String → String
  | [] => ""
  | [l] => l
  | l :: ls => l ++ "." ++ joinDot ls

/-- `containsSub pat s` decides whether `pat` occurs as a contiguous substring
of `s` (JavaScript `String.prototype.includes`). -/
def containsSub (pat : List Char) : List Char → Bool
  | [] => pat.isEmpty
  | c :: cs => (pat.isPrefixOf (c :: cs)) || containsSub pat cs

/-! ## Override table resolution (spec §4.1)

Modelled from the spec: query-time domain matching is not implemented in the
repository — resolution is delegated to the external dnsmasq forwarder, which
consumes the generated `server=/domain/upstream` directives.  §4.1 of the
specification fixes the matching policy the resolution engine must implement:
exact match first, then progressively shorter parent-domain suffixes
(deterministic, longest-suffix-match wins), and the default pool when no
suffix matches. -/

/-- All non-empty suffixes of a label list, longest first. -/
def suffixesOfLabels : List String → List (List String)
  | [] => []
  | l :: ls => (l :: ls) :: suffixesOfLabels ls

/-- Look up the upstream recorded for exactly this domain string in the
override table (first matching entry). -/
def lookupUpstream (table : List OverrideEntry) (d : String) : Option String :=
  (table.find? (fun e => e.domain == d)).map (fun e => e.resolveVia)

/-- Modelled from the spec (§4.1 `resolveTarget`): try the exact domain first;
if absent, try progressively shorter parent-domain suffixes (longest first);
with no match at all, return the ordered default pool.  `Sum.inl upstream`
is a matched override, `Sum.inr pool` is default-pool resolution. -/
def resolveTarget (table : List OverrideEntry) (defaultPool : List String)
    (domain : String) : String ⊕ List String :=
  match lookupUpstream table domain with
  | some up => Sum.inl up
  | none =>
    match ((suffixesOfLabels ((labelsOf domain).drop 1)).map joinDot).findSome?
        (lookupUpstream table) with
    | some up => Sum.inl up
    | none => Sum.inr defaultPool

/-! ## Input validation (src/routes/api.js)

`POST /api/domains` validates its body with two regular expressions; their
languages are decided here by explicit character-list checks.

Domain regex: one alphanumeric character, 1 to 61 characters that are
alphanumeric or a hyphen, one alphanumeric character, then one or more groups
of a dot followed by at least two letters.  Since neither character class of
the head part contains a dot and the tail groups are all letters after forced
dots, a string matches exactly when: the part before the first dot is 3 to 63
characters, starts and ends alphanumeric with alphanumeric-or-hyphen in
between, and every later dot-separated label is at least two letters. -/

/-- ASCII alphanumeric, the JavaScript character class `[a-zA-Z0-9]`. -/
def isAlnumChar (c : Char) : Bool := c.isAlpha || c.isDigit

/-- The head part of the domain regex before the first dot:
`[a-zA-Z0-9][a-zA-Z0-9-]{1,61}[a-zA-Z0-9]`. -/
def headPartOk (cs : List Char) : Bool :=
  match cs with
  | [] => false
  | c :: rest =>
    match rest.reverse with
    | [] => false
    | lastc :: midRev =>
      isAlnumChar c && isAlnumChar lastc
        && decide (1 ≤ midRev.length) && decide (midRev.length ≤ 61)
        && midRev.all (fun m => isAlnumChar m || m == '-')

/-- One tail group body of the domain regex: `[a-zA-Z]{2,}`. -/
def tailLabelOk (cs : List Char) : Bool :=
  decide (2 ≤ cs.length) && cs.all Char.isAlpha

/-- The domain validation of `POST /api/domains`:
`/^[a-zA-Z0-9][a-zA-Z0-9-]{1,61}[a-zA-Z0-9](?:\.[a-zA-Z]{2,})+$/`. -/
def validDomain (s : String) : Bool :=
  match splitOnChar '.' s.data with
  | [] => false
  | [_] => false
  | head0 :: tails => headPartOk head0 && tails.all tailLabelOk

/-- One octet field of the IP regex: `[0-9]{1,3}`. -/
def octetOk (cs : List Char) : Bool :=
  decide (1 ≤ cs.length) && decide (cs.length ≤ 3) && cs.all Char.isDigit

/-- The resolver validation of `POST /api/domains`:
`/^(?:[0-9]{1,3}\.){3}[0-9]{1,3}$/` — four dot-separated 1-to-3-digit runs. -/
def validIPv4 (s : String) : Bool :=
  let parts := splitOnChar '.' s.data
  decide (parts.length = 4) && parts.all octetOk

/-! ## Stateful model of src/dnsconfig.js and src/logger.js

The observable state is the set of files the module writes; the environment
records, for one execution, the result of every fallible I/O operation and the
timestamp the run observes. -/

/-- The files touched by the dnsconfig and logger modules, plus the console. -/
structure DnsState where
  /-- `data/dns_config/smartdns.conf`, as lines; `none` when never written. -/
  confFile : Option (List String)
  /-- `logs/dns.log` entries. -/
  dnsLog : List String
  /-- `logs/access.log` entries (logger.info / logger.warn). -/
  accessLog : List String
  /-- `logs/error.log` entries (logger.error). -/
  errorLog : List String
  /-- `data/bypass_report.json`; `none` when never written. -/
  bypassReport : Option (Nat × List OverrideEntry × List (String × Nat))
  /-- Console output (console.log / console.error / console.warn). -/
  console : List String
deriving DecidableEq, Repr

/-- Outcomes of the fallible operations of one `updateDNSConfig` execution. -/
structure DnsEnv where
  /-- Result of `config.getConfig()`. -/
  getConfigResult : Except String AppConfig
  /-- Result of `config.getDomainList()`. -/
  getDomainListResult : Except String DomainList
  /-- Whether writing `smartdns.conf` succeeds. -/
  confWriteOk : Bool
  /-- Whether appending the restart line to `dns.log` succeeds. -/
  restartAppendOk : Bool
  /-- Whether writing `bypass_report.json` succeeds. -/
  reportWriteOk : Bool
  /-- Whether logger file appends succeed during this execution. -/
  logAppendOk : Bool
  /-- The ISO timestamp observed by this execution. -/
  timestamp : String
deriving Repr

/-- `logger.formatLogMessage`. -/
def formatLogMessage (timestamp message : String) : String :=
  "[" ++ timestamp ++ "] " ++ message

/-- `logger.info`: always prints to the console; appends to `access.log`
best-effort (an append failure is only reported to the console). -/
def loggerInfo (env : DnsEnv) (st : DnsState) (msg : String) : DnsState :=
  let formatted := formatLogMessage env.timestamp ("INFO: " ++ msg)
  if env.logAppendOk then
    { st with console := st.console ++ [formatted],
              accessLog := st.accessLog ++ [formatted] }
  else
    { st with console := st.console ++ [formatted, "Failed to write to access log"] }

/-- `logger.error`: always prints to the console; appends to `error.log`
best-effort. -/
def loggerError (env : DnsEnv) (st : DnsState) (msg : String) : DnsState :=
  let formatted := formatLogMessage env.timestamp ("ERROR: " ++ msg)
  if env.logAppendOk then
    { st with console := st.console ++ [formatted],
              errorLog := st.errorLog ++ [formatted] }
  else
    { st with console := st.console ++ [formatted, "Failed to write to error log"] }

/-- `logger.dnsQuery`: appends the query line to `dns.log`; on failure only
reports to the console and still returns normally. -/
def dnsQueryRun (appendOk : Bool) (timestamp : String) (st : DnsState)
    (query response : String) : DnsState × Except String Unit :=
  let formatted := formatLogMessage timestamp ("DNS QUERY: " ++ query ++ " -> " ++ response)
  if appendOk then
    ({ st with dnsLog := st.dnsLog ++ [formatted] }, Except.ok ())
  else
    ({ st with console := st.console ++ ["Failed to write to DNS log"] }, Except.ok ())

/-- `generateDnsmasqConfig` as an effect: logs, writes the configuration file
(the sole fallible step), logs again.  On a write failure the exception
propagates to the caller. -/
def generateDnsmasqConfigRun (env : DnsEnv) (st : DnsState)
    (cfg : AppConfig) (dl : DomainList) : DnsState × Except String Unit :=
  let st := loggerInfo env st "Generating DNS configuration"
  if env.confWriteOk then
    let st := { st with confFile := some (generateDnsmasqConfigLines cfg dl env.timestamp) }
    (loggerInfo env st "DNS configuration generated", Except.ok ())
  else
    (st, Except.error "conf write failed")

/-- `restartDnsmasq`: appends a restart line to `dns.log`; on failure logs the
error and rethrows. -/
def restartDnsmasqRun (env : DnsEnv) (st : DnsState) :
    DnsState × Except String Unit :=
  let st := loggerInfo env st "Simulating DNS service restart"
  if env.restartAppendOk then
    let st := { st with dnsLog := st.dnsLog
      ++ [formatLogMessage env.timestamp "INFO: DNS service restarted"] }
    (loggerInfo env st "DNS service restart simulated successfully", Except.ok ())
  else
    (loggerError env st "Failed to simulate DNS restart: append failed",
     Except.error "append failed")

/-- The per-resolver domain counts of the bypass report (`report.dnsServers`),
an association list in first-seen order. -/
def bumpResolver : List (String × Nat) → String → List (String × Nat)
  | [], r => [(r, 1)]
  | (k, n) :: rest, r =>
    if k = r then (k, n + 1) :: rest else (k, n) :: bumpResolver rest r

/-- Count domains per DNS server as `generateBypassReport` does. -/
def countByResolver (domains : List OverrideEntry) : List (String × Nat) :=
  domains.foldl (fun acc item => bumpResolver acc item.resolveVia) []

/-- `generateBypassReport`: writes the report; every failure is caught and only
logged (non-critical), so it never throws. -/
def generateBypassReportRun (env : DnsEnv) (st : DnsState) (dl : DomainList) :
    DnsState :=
  if env.reportWriteOk then
    let report := some (dl.domains.length, dl.domains, countByResolver dl.domains)
    loggerInfo env { st with bypassReport := report } "Bypass report generated"
  else
    loggerError env st "Failed to generate bypass report: write failed"

/-- `updateDNSConfig`: reads the settings and the domain list, regenerates the
forwarder configuration, simulates the restart, writes the bypass report;
any failure before completion is logged via `logger.error` and rethrown. -/
def updateDNSConfigRun (env : DnsEnv) (st : DnsState) :
    DnsState × Except String Bool :=
  match env.getConfigResult with
  | Except.error e =>
    (loggerError env st ("Failed to update DNS configuration: " ++ e),
     Except.error e)
  | Except.ok cfg =>
    match env.getDomainListResult with
    | Except.error e =>
      (loggerError env st ("Failed to update DNS configuration: " ++ e),
       Except.error e)
    | Except.ok dl =>
      match generateDnsmasqConfigRun env st cfg dl with
      | (st, Except.error e) =>
        (loggerError env st ("Failed to update DNS configuration: " ++ e),
         Except.error e)
      | (st, Except.ok ()) =>
        match restartDnsmasqRun env st with
        | (st, Except.error e) =>
          (loggerError env st ("Failed to update DNS configuration: " ++ e),
           Except.error e)
        | (st, Except.ok ()) =>
          let st := generateBypassReportRun env st dl
          (loggerInfo env st "DNS configuration updated successfully",
           Except.ok true)

/-! ## GET /api/status (src/routes/api.js) -/

/-- The JSON object the status route sends on success, with exactly the fields
of the `res.json({...})` literal. -/
structure StatusResponse where
  running : Bool
  version : String
  port : Nat
  uptime : String
  lastUpdate : String
  domainCount : Nat
  queryCount : Nat
  cacheEntries : Nat
deriving DecidableEq, Repr

/-- The field names of the status response object, in literal order. -/
def statusResponseFields : List String :=
  ["running", "version", "port", "uptime", "lastUpdate",
   "domainCount", "queryCount", "cacheEntries"]

/-- Outcomes of the fallible operations of one `GET /api/status` execution. -/
structure StatusEnv where
  /-- Whether `fs.access` on `smartdns.conf` succeeds. -/
  confFileExists : Bool
  /-- Result of `config.getDomainList()` (a failure escapes to the 500 path). -/
  getDomainListResult : Except String DomainList
  /-- The simulated uptime start, `startTime.toLocaleString()`. -/
  startTimeText : String
  /-- `fs.stat` on `data/config.json`: formatted mtime, or `none` on failure. -/
  configStatText : Option String
  /-- The query-count block: `Except.error` when mkdir or another step throws;
  `Except.ok (some content)` when `dns.log` was read; `Except.ok none` when the
  file was missing and created empty. -/
  logsRead : Except String (Option String)
  /-- Whether writing the simulated query lines succeeds. -/
  simWriteOk : Bool
  /-- Result of the `config.getConfig()` inside the cache-entries try block. -/
  innerConfigResult : Except String AppConfig
  /-- Result of the final `config.getConfig()` (a failure escapes to 500). -/
  finalConfigResult : Except String AppConfig
deriving Repr

/-- Count the lines of the log content that contain `DNS QUERY:`
(`lines.filter(line => line.includes('DNS QUERY:')).length`). -/
def countDnsQueries (content : String) : Nat :=
  ((splitOnChar '\n' content.data).filter
    (fun line => containsSub "DNS QUERY:".data line)).length

/-- The pure decision core of `GET /api/status`.  `Except.error` is the 500
response path; `Except.ok` carries the JSON object sent. -/
def statusHandler (env : StatusEnv) : Except String StatusResponse :=
  let running := env.confFileExists
  match env.getDomainListResult with
  | Except.error e => Except.error e
  | Except.ok domainList =>
    let domainCount := domainList.domains.length
    let version := "Smart DNS Proxy v1.0"
    let uptime := "Running since " ++ env.startTimeText
    let lastUpdate := match env.configStatText with
      | some t => t
      | none => "Unknown"
    let queryCount := match env.logsRead with
      | Except.error _ => 0
      | Except.ok contentOpt =>
        let n := countDnsQueries (contentOpt.getD "")
        if n = 0 then (if env.simWriteOk then 3 else 0) else n
    let cacheEntries := match env.innerConfigResult with
      | Except.ok c => c.dnsServer.cacheSize
      | Except.error _ => 0
    match env.finalConfigResult with
    | Except.error e => Except.error e
    | Except.ok cfg =>
      Except.ok { running := running, version := version,
                  port := cfg.dnsServer.port, uptime := uptime,
                  lastUpdate := lastUpdate, domainCount := domainCount,
                  queryCount := queryCount, cacheEntries := cacheEntries }

/-! ## POST /api/domains and POST /api/settings (src/routes/api.js) -/

/-- An HTTP response of the JSON API: status code, success flag, message. -/
structure ApiResponse where
  status : Nat
  success : Bool
  message : String
deriving DecidableEq, Repr

/-- The pure decision core of `POST /api/domains` acting on the stored domain
list.  `domain`/`resolveVia` are the body fields (`none` = absent); an absent
or empty string is falsy, triggering the required-fields 400.  Validation
happens before any state change; on success `config.addDomain` updates the
stored list. -/
def domainsPostHandler (domain resolveVia : Option String)
    (stored : List OverrideEntry) : ApiResponse × List OverrideEntry :=
  match domain, resolveVia with
  | some d, some r =>
    if d = "" ∨ r = "" then
      (⟨400, false, "Domain and resolveVia are required"⟩, stored)
    else if ¬ validDomain d then
      (⟨400, false, "Invalid domain format"⟩, stored)
    else if ¬ validIPv4 r then
      (⟨400, false, "Invalid IP address format"⟩, stored)
    else
      (⟨200, true, "Domain added successfully"⟩, addDomain stored d r)
  | _, _ => (⟨400, false, "Domain and resolveVia are required"⟩, stored)

/-- The request body of `POST /api/settings`; each top-level section may be
absent (`none` = falsy in the JavaScript presence check). -/
structure SettingsBody where
  dnsServer : Option DnsServerSettings
  alternativeDNS : Option (List String)
  webInterface : Option WebInterfaceSettings
deriving DecidableEq, Repr

/-- The pure decision core of `POST /api/settings`: the only validation is the
presence of the three top-level sections; any body passing it is saved as-is.
The second component is the stored configuration after the request. -/
def settingsPostHandler (body : SettingsBody) (stored : Option SettingsBody) :
    ApiResponse × Option SettingsBody :=
  if body.dnsServer = none ∨ body.alternativeDNS = none ∨ body.webInterface = none then
    (⟨400, false, "Invalid settings format"⟩, stored)
  else
    (⟨200, true, "Settings updated successfully"⟩, some body)

/-! ## GET /api/settings (src/routes/api.js) -/

/-- The pure core of `GET /api/settings`: the response body is the stored
settings with the password removed — but only when the stored password is
truthy (`settings.webInterface && settings.webInterface.password`), so an
empty-string password fails the guard and is sent unchanged. -/
def getSettingsHandler (cfg : AppConfig) : AppConfig :=
  match cfg.webInterface.password with
  | some p =>
    if p ≠ "" then
      { cfg with webInterface := { cfg.webInterface with password := none } }
    else cfg
  | none => cfg

/-! ## Concrete fixtures (the repository's default configuration) -/

/-- The default settings object of `src/config.js`. -/
def cfg0 : AppConfig :=
  ⟨⟨53, 1000, true⟩, ["8.8.8.8", "1.1.1.1"], ⟨5000, false, "admin", some "admin"⟩⟩

/-- The default domain list of `src/config.js`. -/
def dl0 : DomainList :=
  ⟨[⟨"netflix.com", "1.1.1.1"⟩, ⟨"spotify.com", "8.8.8.8"⟩]⟩

/-- A fresh file-system state: nothing written yet. -/
def st0 : DnsState := ⟨none, [], [], [], none, []⟩

/-! ## Helper lemmas -/

/-- Splitting the generated configuration after its two comment header lines;
the remainder does not mention the timestamp. -/
def dnsmasqConfigBody (cfg : AppConfig) (dl : DomainList) : List String :=
  (["",
    "# Basic configuration",
    "port=" ++ toString cfg.dnsServer.port,
    "cache-size=" ++ toString cfg.dnsServer.cacheSize,
    "log-queries=" ++ (if cfg.dnsServer.logQueries then "true" else "false"),
    "",
    "# Alternative DNS servers"]
   ++ cfg.alternativeDNS.map (fun dns => "server=" ++ dns))
  ++ (["", "# Domain specific configurations"]
      ++ (if dl.domains.length > 0 then
            dl.domains.map (fun item => "server=/" ++ item.domain ++ "/" ++ item.resolveVia)
          else
            ["# No domains configured yet"]))

theorem generate_eq_header_append_body (cfg : AppConfig) (dl : DomainList)
    (t : String) :
    generateDnsmasqConfigLines cfg dl t
      = ["# Smart DNS Proxy Configuration", "# Generated at " ++ t]
        ++ dnsmasqConfigBody cfg dl := rfl

theorem isDirective_of_data_cons (a b : String) (c : Char) (cs : List Char)
    (h : a.data = c :: cs) : isDirective (a ++ b) = (c != '#') := by
  simp [isDirective, String.data_append, h]

/-! ## C1 -/

/-- C1: every override entry `{domain, resolveVia}` of the domain list yields
the directive line `server=/<domain>/<resolveVia>` in the generated forwarder
configuration, and the configuration carries one `server=<address>` line per
entry of the `alternativeDNS` default pool, contiguously and in list order. -/
theorem config_routes_overrides_and_defaults (cfg : AppConfig) (dl : DomainList)
    (t : String) :
    (∀ e ∈ dl.domains,
        ("server=/" ++ e.domain ++ "/" ++ e.resolveVia)
          ∈ generateDnsmasqConfigLines cfg dl t)
    ∧ ∃ pre post, generateDnsmasqConfigLines cfg dl t
        = pre ++ cfg.alternativeDNS.map (fun dns => "server=" ++ dns) ++ post := by
  constructor
  · intro e he
    have hne : dl.domains.length > 0 :=
      List.length_pos.mpr (List.ne_nil_of_mem he)
    rw [generateDnsmasqConfigLines, if_pos hne]
    refine List.mem_append_right _ (List.mem_append_right _ ?_)
    exact List.mem_map_of_mem _ he
  · exact ⟨_, _, rfl⟩

theorem config_routes_overrides_and_defaults_witness :
    (("server=/" ++ "netflix.com" ++ "/" ++ "1.1.1.1")
        ∈ generateDnsmasqConfigLines cfg0 dl0 "2025-01-01T00:00:00.000Z")
    ∧ ∃ pre post, generateDnsmasqConfigLines cfg0 dl0 "2025-01-01T00:00:00.000Z"
        = pre ++ cfg0.alternativeDNS.map (fun dns => "server=" ++ dns) ++ post := by
  have h := config_routes_overrides_and_defaults cfg0 dl0 "2025-01-01T00:00:00.000Z"
  exact ⟨h.1 ⟨"netflix.com", "1.1.1.1"⟩ (by decide), h.2⟩

/-! ## C2 -/

/-- C2 (spec-modelled, §4.1): `resolveTarget` matches by longest suffix —
an exact table hit always wins, and with overrides for both `netflix.com` and
`www.netflix.com` (in either table order) a query for `www.netflix.com` takes
the more specific entry; a bare `netflix.com` override still catches the
subdomain, and an unrelated domain falls through to the default pool. -/
theorem resolveTarget_longest_suffix_match :
    (∀ (table : List OverrideEntry) (pool : List String) (d : String)
        (e : OverrideEntry), table.find? (fun x => x.domain == d) = some e →
        resolveTarget table pool d = Sum.inl e.resolveVia)
    ∧ resolveTarget [⟨"netflix.com", "8.8.8.8"⟩, ⟨"www.netflix.com", "1.1.1.1"⟩]
        ["9.9.9.9"] "www.netflix.com" = Sum.inl "1.1.1.1"
    ∧ resolveTarget [⟨"www.netflix.com", "1.1.1.1"⟩, ⟨"netflix.com", "8.8.8.8"⟩]
        ["9.9.9.9"] "www.netflix.com" = Sum.inl "1.1.1.1"
    ∧ resolveTarget [⟨"netflix.com", "1.1.1.1"⟩] ["9.9.9.9"] "www.netflix.com"
        = Sum.inl "1.1.1.1"
    ∧ resolveTarget [⟨"netflix.com", "1.1.1.1"⟩] ["9.9.9.9"] "example.org"
        = Sum.inr ["9.9.9.9"] := by
  refine ⟨?_, by decide, by decide, by decide, by decide⟩
  intro table pool d e h
  simp [resolveTarget, lookupUpstream, h]

theorem resolveTarget_longest_suffix_match_witness :
    resolveTarget [⟨"netflix.com", "8.8.8.8"⟩] [] "netflix.com"
      = Sum.inl "8.8.8.8" :=
  resolveTarget_longest_suffix_match.1 _ _ _ ⟨"netflix.com", "8.8.8.8"⟩ (by decide)

/-! ## C9 -/

/-- C9: `removeDomain` is total and idempotent — after it, no entry with the
removed domain remains, every other entry survives, the result is a sublist of
the input (order and contents preserved), a second removal changes nothing,
and a list free of the domain is returned unchanged. -/
theorem removeDomain_total_and_idempotent (l : List OverrideEntry) (d : String) :
    (∀ e ∈ removeDomain l d, e.domain ≠ d)
    ∧ (∀ e ∈ l, e.domain ≠ d → e ∈ removeDomain l d)
    ∧ (removeDomain l d).Sublist l
    ∧ removeDomain (removeDomain l d) d = removeDomain l d
    ∧ ((∀ e ∈ l, e.domain ≠ d) → removeDomain l d = l) := by
  refine ⟨?_, ?_, ?_, ?_, ?_⟩
  · intro e he
    exact bne_iff_ne.mp (List.mem_filter.mp he).2
  · intro e he hne
    exact List.mem_filter.mpr ⟨he, bne_iff_ne.mpr hne⟩
  · exact List.filter_sublist l
  · exact List.filter_eq_self.mpr (fun e he => (List.mem_filter.mp he).2)
  · intro h
    exact List.filter_eq_self.mpr (fun e he => bne_iff_ne.mpr (h e he))

theorem removeDomain_total_and_idempotent_witness :
    removeDomain [⟨"netflix.com", "1.1.1.1"⟩] "spotify.com"
      = [⟨"netflix.com", "1.1.1.1"⟩] :=
  (removeDomain_total_and_idempotent [⟨"netflix.com", "1.1.1.1"⟩]
    "spotify.com").2.2.2.2 (by decide)

/-! ## C3 -/

theorem addDomain_map_domain_of_mem (l : List OverrideEntry) (d r : String)
    (h : d ∈ l.map OverrideEntry.domain) :
    (addDomain l d r).map OverrideEntry.domain = l.map OverrideEntry.domain := by
  induction l with
  | nil => simp at h
  | cons e rest ih =>
    by_cases he : e.domain = d
    · simp [addDomain, he]
    · have hb : (e.domain == d) = false := beq_eq_false_iff_ne.mpr he
      have hmem : d ∈ rest.map OverrideEntry.domain := by
        rcases List.mem_cons.mp h with h1 | h1
        · exact absurd h1.symm he
        · exact h1
      simp [addDomain, hb, ih hmem]

theorem addDomain_of_not_mem (l : List OverrideEntry) (d r : String)
    (h : d ∉ l.map OverrideEntry.domain) :
    addDomain l d r = l ++ [⟨d, r⟩] := by
  induction l with
  | nil => rfl
  | cons e rest ih =>
    have he : e.domain ≠ d := fun hc => h (by simp [hc])
    have hb : (e.domain == d) = false := beq_eq_false_iff_ne.mpr he
    have hrest : d ∉ rest.map OverrideEntry.domain := fun hc => h (by simp [hc])
    simp [addDomain, hb, ih hrest]

theorem addDomain_find_of_mem (l : List OverrideEntry) (d r : String)
    (h : d ∈ l.map OverrideEntry.domain) :
    (addDomain l d r).find? (fun e => e.domain == d) = some ⟨d, r⟩ := by
  induction l with
  | nil => simp at h
  | cons e rest ih =>
    by_cases he : e.domain = d
    · simp [addDomain, he, List.find?]
    · have hb : (e.domain == d) = false := beq_eq_false_iff_ne.mpr he
      have hmem : d ∈ rest.map OverrideEntry.domain := by
        rcases List.mem_cons.mp h with h1 | h1
        · exact absurd h1.symm he
        · exact h1
      simp [addDomain, hb, List.find?, ih hmem]

/-- C3: `addDomain` keeps domain strings unique with last write winning — it
preserves pairwise-distinct domains; when the domain is already present the
domain sequence (hence the length) is unchanged and the stored entry now
carries the new `resolveVia` instead of a second entry being appended; when it
is absent the entry is appended at the end. -/
theorem addDomain_unique_last_write_wins (l : List OverrideEntry) (d r : String) :
    ((l.map OverrideEntry.domain).Nodup →
        ((addDomain l d r).map OverrideEntry.domain).Nodup)
    ∧ (d ∈ l.map OverrideEntry.domain →
        (addDomain l d r).map OverrideEntry.domain = l.map OverrideEntry.domain
        ∧ (addDomain l d r).length = l.length
        ∧ (addDomain l d r).find? (fun e => e.domain == d) = some ⟨d, r⟩)
    ∧ (d ∉ l.map OverrideEntry.domain → addDomain l d r = l ++ [⟨d, r⟩]) := by
  refine ⟨?_, ?_, addDomain_of_not_mem l d r⟩
  · intro hnd
    by_cases hmem : d ∈ l.map OverrideEntry.domain
    · rw [addDomain_map_domain_of_mem l d r hmem]
      exact hnd
    · rw [addDomain_of_not_mem l d r hmem]
      simp only [List.map_append, List.map_cons, List.map_nil, List.nodup_append]
      refine ⟨hnd, List.nodup_singleton d, ?_⟩
      intro a ha hb
      exact hmem ((List.mem_singleton.mp hb) ▸ ha)
  · intro hmem
    have hmap := addDomain_map_domain_of_mem l d r hmem
    refine ⟨hmap, ?_, addDomain_find_of_mem l d r hmem⟩
    have := congrArg List.length hmap
    simpa using this

theorem addDomain_unique_last_write_wins_witness :
    (addDomain dl0.domains "netflix.com" "9.9.9.9").map OverrideEntry.domain
        = dl0.domains.map OverrideEntry.domain
    ∧ (addDomain dl0.domains "netflix.com" "9.9.9.9").length = dl0.domains.length
    ∧ (addDomain dl0.domains "netflix.com" "9.9.9.9").find?
        (fun e => e.domain == "netflix.com") = some ⟨"netflix.com", "9.9.9.9"⟩ :=
  (addDomain_unique_last_write_wins dl0.domains "netflix.com" "9.9.9.9").2.1
    (by decide)

/-! ## C7 -/

/-- C7: regenerating the forwarder configuration from identical settings and
domain list is idempotent — any two runs (differing only in their timestamps)
agree on every directive line, in the same order. -/
theorem generate_idempotent_on_directives (cfg : AppConfig) (dl : DomainList)
    (t1 t2 : String) :
    directiveLines (generateDnsmasqConfigLines cfg dl t1)
      = directiveLines (generateDnsmasqConfigLines cfg dl t2) := by
  rw [generate_eq_header_append_body, generate_eq_header_append_body,
    directiveLines, directiveLines, List.filter_append, List.filter_append]
  have h1 : isDirective "# Smart DNS Proxy Configuration" = false := rfl
  have h2 : ∀ t, isDirective ("# Generated at " ++ t) = false := fun t => by
    rw [isDirective_of_data_cons "# Generated at " t '#' "# Generated at ".data.tail rfl]
    rfl
  simp [List.filter_cons, h1, h2]

/-! ## C4 -/

/-- C4: when reading the settings or the domain list fails, `updateDNSConfig`
keeps the last-known-good state — the forwarder configuration file, the DNS
log and the bypass report are untouched, the failure is logged via
`logger.error`, and the error is rethrown to the caller. -/
theorem updateDNSConfig_keeps_last_known_good (env : DnsEnv) (st : DnsState)
    (e : String)
    (h : env.getConfigResult = Except.error e
       ∨ ∃ cfg, env.getConfigResult = Except.ok cfg
           ∧ env.getDomainListResult = Except.error e) :
    (updateDNSConfigRun env st).1.confFile = st.confFile
    ∧ (updateDNSConfigRun env st).1.dnsLog = st.dnsLog
    ∧ (updateDNSConfigRun env st).1.bypassReport = st.bypassReport
    ∧ formatLogMessage env.timestamp
        ("ERROR: " ++ ("Failed to update DNS configuration: " ++ e))
        ∈ (updateDNSConfigRun env st).1.console
    ∧ (updateDNSConfigRun env st).2 = Except.error e := by
  rcases h with h | ⟨cfg, hc, hd⟩
  · cases hap : env.logAppendOk <;>
      simp [updateDNSConfigRun, h, loggerError, hap]
  · cases hap : env.logAppendOk <;>
      simp [updateDNSConfigRun, hc, hd, loggerError, hap]

theorem updateDNSConfig_keeps_last_known_good_witness :
    (updateDNSConfigRun
        ⟨Except.error "read failed", Except.ok dl0, true, true, true, true, "T"⟩
        st0).1.confFile = st0.confFile
    ∧ (updateDNSConfigRun
        ⟨Except.error "read failed", Except.ok dl0, true, true, true, true, "T"⟩
        st0).2 = Except.error "read failed" := by
  have h := updateDNSConfig_keeps_last_known_good
    ⟨Except.error "read failed", Except.ok dl0, true, true, true, true, "T"⟩
    st0 "read failed" (Or.inl rfl)
  exact ⟨h.1, h.2.2.2.2⟩

/-! ## C5 -/

/-- C5: `logger.dnsQuery` swallows telemetry failures — it returns normally
whether or not the append succeeds, never touches any state besides the DNS
log, and on failure reports only to the console, leaving the DNS log
unchanged. -/
theorem dnsQuery_failures_swallowed (ok : Bool) (t : String) (st : DnsState)
    (q r : String) :
    (dnsQueryRun ok t st q r).2 = Except.ok ()
    ∧ (dnsQueryRun ok t st q r).1.confFile = st.confFile
    ∧ (dnsQueryRun ok t st q r).1.accessLog = st.accessLog
    ∧ (dnsQueryRun ok t st q r).1.errorLog = st.errorLog
    ∧ (dnsQueryRun ok t st q r).1.bypassReport = st.bypassReport
    ∧ (ok = false → (dnsQueryRun ok t st q r).1.dnsLog = st.dnsLog
        ∧ (dnsQueryRun ok t st q r).1.console
            = st.console ++ ["Failed to write to DNS log"]) := by
  cases ok <;> simp [dnsQueryRun]

theorem dnsQuery_failures_swallowed_witness :
    (dnsQueryRun false "T" st0 "netflix.com" "1.1.1.1").2 = Except.ok ()
    ∧ (dnsQueryRun false "T" st0 "netflix.com" "1.1.1.1").1.dnsLog = st0.dnsLog := by
  have h := dnsQuery_failures_swallowed false "T" st0 "netflix.com" "1.1.1.1"
  exact ⟨h.1, (h.2.2.2.2.2 rfl).1⟩

/-! ## C6 -/

/-- C6 counterexample: the status route's response object does not have the
claimed shape — it has neither an `activeUpstreams` nor a `totalQueries`
field, and its field list differs from the claimed one. -/
theorem status_shape_differs_from_claim :
    statusResponseFields
      ≠ ["running", "activeUpstreams", "cacheSize", "totalQueries"]
    ∧ "activeUpstreams" ∉ statusResponseFields
    ∧ "totalQueries" ∉ statusResponseFields := by decide

/-- C6 amended: on success the status route returns an object with the fields
running, version, port, uptime, lastUpdate, domainCount, queryCount and
cacheEntries, where `running` is a boolean that reports whether the generated
forwarder configuration file exists. -/
theorem status_running_flag_and_fields (env : StatusEnv) (r : StatusResponse)
    (h : statusHandler env = Except.ok r) :
    r.running = env.confFileExists
    ∧ statusResponseFields
      = ["running", "version", "port", "uptime", "lastUpdate",
         "domainCount", "queryCount", "cacheEntries"] := by
  refine ⟨?_, rfl⟩
  unfold statusHandler at h
  rcases hdl : env.getDomainListResult with e | dl
  · rw [hdl] at h; simp at h
  · rw [hdl] at h
    rcases hfc : env.finalConfigResult with e2 | cfg
    · rw [hfc] at h; simp at h
    · rw [hfc] at h
      simp only [Except.ok.injEq] at h
      rw [← h]

/-- An environment in which every read succeeds, the configuration file
exists and the DNS log is empty. -/
def env0 : StatusEnv :=
  ⟨true, Except.ok dl0, "start", none, Except.ok none, true,
   Except.ok cfg0, Except.ok cfg0⟩

/-- The response the status route produces in `env0`. -/
def resp0 : StatusResponse :=
  ⟨true, "Smart DNS Proxy v1.0", 53, "Running since start", "Unknown", 2, 3, 1000⟩

theorem status_running_flag_and_fields_witness :
    resp0.running = env0.confFileExists
    ∧ statusResponseFields
      = ["running", "version", "port", "uptime", "lastUpdate",
         "domainCount", "queryCount", "cacheEntries"] :=
  status_running_flag_and_fields env0 resp0 rfl

/-! ## C8 -/

/-- A settings body whose DNS port is far outside the valid port range. -/
def badPortSettings : SettingsBody :=
  ⟨some ⟨99999, 1000, true⟩, some ["8.8.8.8"],
   some ⟨5000, false, "admin", some "admin"⟩⟩

/-- C8 counterexample: the settings-update operation accepts and stores a
settings object whose DNS port 99999 exceeds the valid port range (at most
65535) — it performs no port-range validation. -/
theorem settings_update_accepts_invalid_port :
    (settingsPostHandler badPortSettings none).1.status = 200
    ∧ (settingsPostHandler badPortSettings none).1.success = true
    ∧ (settingsPostHandler badPortSettings none).2 = some badPortSettings
    ∧ badPortSettings.dnsServer.map DnsServerSettings.port = some 99999
    ∧ 65535 < 99999 := by decide

/-- C8 amended: the domain-add operation rejects malformed input with a 400
response and no state change, and accepts a body only when the domain matches
the domain regex and the resolver the dotted-quad regex (applying
`addDomain`); the settings-update operation validates only the presence of the
`dnsServer`, `alternativeDNS` and `webInterface` sections (no port-range or
address-format checks), leaving the stored settings unchanged on a 400. -/
theorem api_validation_as_implemented :
    (∀ dom res st, (domainsPostHandler dom res st).1.status = 400 →
        (domainsPostHandler dom res st).2 = st)
    ∧ (∀ d r st, (domainsPostHandler (some d) (some r) st).1.status ≠ 400 →
        validDomain d = true ∧ validIPv4 r = true
        ∧ (domainsPostHandler (some d) (some r) st).2 = addDomain st d r)
    ∧ (∀ body stored, ((settingsPostHandler body stored).1.status = 400
        ↔ (body.dnsServer = none ∨ body.alternativeDNS = none
            ∨ body.webInterface = none)))
    ∧ (∀ body stored, (settingsPostHandler body stored).1.status = 400 →
        (settingsPostHandler body stored).2 = stored) := by
  refine ⟨?_, ?_, ?_, ?_⟩
  · intro dom res st h
    match dom, res with
    | none, none => rfl
    | none, some _ => rfl
    | some _, none => rfl
    | some d, some r =>
      simp only [domainsPostHandler] at h ⊢
      split_ifs at h ⊢ <;> first | rfl | simp at h
  · intro d r st h
    simp only [domainsPostHandler] at h ⊢
    split_ifs at h ⊢ with h1 h2 h3 <;> try simp at h
    simp only [Decidable.not_not] at h2 h3
    exact ⟨h2, h3, rfl⟩
  · intro body stored
    unfold settingsPostHandler
    split_ifs with hc <;> simp [hc]
  · intro body stored h
    unfold settingsPostHandler at h ⊢
    split_ifs at h ⊢ <;> first | rfl | simp at h

theorem api_validation_as_implemented_witness :
    (domainsPostHandler (some "x") (some "1.1.1.1") []).2 = []
    ∧ (validDomain "netflix.com" = true ∧ validIPv4 "1.1.1.1" = true
       ∧ (domainsPostHandler (some "netflix.com") (some "1.1.1.1") []).2
           = addDomain [] "netflix.com" "1.1.1.1") :=
  ⟨api_validation_as_implemented.1 (some "x") (some "1.1.1.1") [] (by decide),
   api_validation_as_implemented.2.1 "netflix.com" "1.1.1.1" [] (by decide)⟩

/-! ## C10 -/

/-- The default configuration with an empty-string web-interface password. -/
def cfgEmptyPw : AppConfig :=
  ⟨⟨53, 1000, true⟩, ["8.8.8.8", "1.1.1.1"], ⟨5000, false, "admin", some ""⟩⟩

/-- C10 (at the failing input): `cfgEmptyPw` and `cfg0` differ only in the
stored `webInterface.password` (empty string versus "admin"), yet the
settings-read responses differ — the truthiness guard skips the delete for an
empty-string password, so that response still carries the password field. -/
theorem getSettings_returns_empty_password :
    (getSettingsHandler cfgEmptyPw).webInterface.password = some ""
    ∧ (getSettingsHandler cfg0).webInterface.password = none
    ∧ cfgEmptyPw.dnsServer = cfg0.dnsServer
    ∧ cfgEmptyPw.alternativeDNS = cfg0.alternativeDNS
    ∧ cfgEmptyPw.webInterface.username = cfg0.webInterface.username
    ∧ getSettingsHandler cfgEmptyPw ≠ getSettingsHandler cfg0 := by decide
